import Mathlib

/-!
# Verification of the ff-graph runtime core

A shallow embedding of the node/component composition framework
(`Hierarchy.ts`, `System.ts` with the embedded `CGraph` component, and the
`SelectionController`), together with theorems settling the frozen claims
about the specification.

Modelling conventions:
* Hierarchy components live in an arena addressed by natural-number
  identifiers (`HId`); the mutable object graph becomes an explicit state
  record `HState` with `parent` / `children` maps, an owning-node map and a
  per-node component lookup table.
* `throw new Error(...)` becomes `Except HErr`, where the error is produced
  before any state mutation, exactly as in the source where the `throw`
  statement precedes every assignment.
* Event emission becomes an explicit trace: each operation returns the list
  of emissions it performs, in order.
* The `while (component) { ... component = component._parent }` loops of the
  source are embedded with an explicit fuel parameter, since nothing in the
  raw state type rules out cyclic parent chains; running out of fuel models
  a loop that is still running.
-/

namespace FFGraph

/-- Identifier of a `Hierarchy` component in the arena. -/
abbrev HId := Nat

/-- Identifier of a `Node`. -/
abbrev NId := Nat

/-- Identifier of a generic `Component` (the result of `components.get`). -/
abbrev CId := Nat

/-- Component type names, used as lookup keys (`ComponentOrType`). -/
abbrev CType := String

/-- The payload of an `IHierarchyEvent`:
`{ type: "hierarchy", add, remove, parent, child }`. -/
structure HEvent where
  add : Bool
  remove : Bool
  parentId : HId
  childId : HId
deriving DecidableEq, Repr

/-- A single emission performed by the upward multicast loop: the event is
delivered either to a hierarchy component (`component.emit`) or to its owning
node (`component.node.emit`). -/
inductive EmitTarget where
  | comp (h : HId)
  | node (n : NId)
deriving DecidableEq, Repr

/-- One entry of the emission trace: which event was delivered where. -/
structure HEmit where
  event : HEvent
  target : EmitTarget
deriving DecidableEq, Repr

/-- The state of the hierarchy arena.

* `parent h` embeds `h._parent` (`none` = `null`);
* `children h` embeds `h._children` (a list of arena identifiers);
* `node h` embeds `h.node`, the owning node of hierarchy component `h`;
* `compsGet n t` embeds `n.components.get(t)`: the component of type `t`
  on node `n`, if any. -/
structure HState where
  parent : HId → Option HId
  children : HId → List HId
  node : HId → NId
  compsGet : NId → CType → Option CId

/-- Errors thrown by the structural operations.  The source throws plain
`Error` objects; the spec names this error kind StructuralViolation. -/
inductive HErr where
  | structuralViolation
deriving DecidableEq, Repr

/-- The chain of hierarchy components visited by
`while (component) { ...; component = component._parent }`, starting at
`start`, with explicit fuel.  Exhausted fuel truncates the chain (the source
loop would keep running). -/
def parentChain (s : HState) : Option HId → Nat → List HId
  | none, _ => []
  | some _, 0 => []
  | some h, fuel + 1 => h :: parentChain s (s.parent h) fuel

/-- The emission trace of the multicast loop: for every component in the
chain, the event is emitted at the component and then at its owning node. -/
def multicast (s : HState) (ev : HEvent) (start : Option HId) (fuel : Nat) :
    List HEmit :=
  (parentChain s start fuel).flatMap fun h =>
    [⟨ev, .comp h⟩, ⟨ev, .node (s.node h)⟩]

/-- Embeds `Hierarchy.addChild(component)`.

```
if (component._parent) { throw new Error("component should not have a parent"); }
component._parent = this;
this._children.push(component);
const event = { type: "hierarchy", add: true, remove: false, parent: this, child: component };
while (component) { component.emit(event); component.node.emit(event); component = component._parent; }
```

`self` plays `this`, `child` plays `component`.  The multicast walk runs on
the updated state, since `component._parent = this` is assigned before the
loop. -/
def addChild (s : HState) (self child : HId) (fuel : Nat) :
    Except HErr (HState × List HEmit) :=
  if (s.parent child).isSome then
    .error .structuralViolation
  else
    let s' : HState :=
      { s with
        parent := fun h => if h = child then some self else s.parent h,
        children := fun h =>
          if h = self then s.children h ++ [child] else s.children h }
    let ev : HEvent := ⟨true, false, self, child⟩
    .ok (s', multicast s' ev (some child) fuel)

/-- Embeds `this._children.splice(this._children.indexOf(component), 1)`.
When `x` occurs in `l`, `indexOf` finds its first occurrence and `splice`
removes it; when it does not, `indexOf` returns `-1` and `splice(-1, 1)`
removes the last element of the array (and nothing from an empty array). -/
def spliceOut (l : List HId) (x : HId) : List HId :=
  if x ∈ l then l.erase x else l.dropLast

/-- Embeds `Hierarchy.removeChild(component)`.

```
if (component._parent !== this) { throw new Error("component not a child of this"); }
const index = this._children.indexOf(component);
this._children.splice(index, 1);
component._parent = null;
const event = { type: "hierarchy", add: false, remove: true, parent: this, child: component };
while (component) { component.emit(event); component.node.emit(event); component = component._parent; }
```

The multicast walk runs on the updated state, in which `component._parent`
has just been set to `null`. -/
def removeChild (s : HState) (self child : HId) (fuel : Nat) :
    Except HErr (HState × List HEmit) :=
  if s.parent child ≠ some self then
    .error .structuralViolation
  else
    let s' : HState :=
      { s with
        children := fun h =>
          if h = self then spliceOut (s.children h) child else s.children h,
        parent := fun h => if h = child then none else s.parent h }
    let ev : HEvent := ⟨false, true, self, child⟩
    .ok (s', multicast s' ev (some child) fuel)

/-- Embeds the `while (parent) { ... }` loop of `Hierarchy.getParent` in its
recursive branch.  The result is `none` when the fuel runs out (the source
loop is still running), `some r` when the loop finishes with result `r`.
Note that the source loop body never reassigns `parent`, so the recursive
call continues with the same `p?`. -/
def getParentLoop (s : HState) (t : CType) (p? : Option HId) :
    Nat → Option (Option CId)
  | 0 => none
  | fuel + 1 =>
    match p? with
    | none => some none
    | some p =>
      match s.compsGet (s.node p) t with
      | some c => some (some c)
      | none => getParentLoop s t p? fuel

/-- Embeds `Hierarchy.getParent(componentOrType, recursive)`.

```
let parent = this._parent;
if (!parent) { return null; }
let component = parent.node.components.get(componentOrType);
if (component) { return component; }
if (recursive) {
  parent = parent._parent;
  while (parent) {
    component = parent.node.components.get(componentOrType);
    if (component) { return component; }
  }
}
return null;
```

The outer `Option` is the fuel layer: `none` means the `while` loop has not
terminated within `fuel` iterations. -/
def getParent (s : HState) (self : HId) (t : CType) (recursive : Bool)
    (fuel : Nat) : Option (Option CId) :=
  match s.parent self with
  | none => some none
  | some p =>
    match s.compsGet (s.node p) t with
    | some c => some (some c)
    | none =>
      if recursive then getParentLoop s t (s.parent p) fuel
      else some none

/-! ## System: global component registry and singleton enforcement -/

/-- A live `Component` instance as seen by the system registry: an identity,
a concrete type name (`typeName`) and the `isSystemSingleton` flag. -/
structure Comp where
  id : Nat
  typeName : CType
  isSystemSingleton : Bool
deriving DecidableEq, Repr

/-- The component registry of a `System` (`ObjectRegistry<Component>`),
kept in insertion order. -/
structure SystemState where
  components : List Comp
deriving DecidableEq, Repr

/-- Errors thrown by the system registry; the spec names this error kind
DuplicateSingleton. -/
inductive SysErr where
  | duplicateSingleton
deriving DecidableEq, Repr

/-- `this.components.has(component)` with a component instance as argument:
the `ObjectRegistry` resolves the argument to its type and reports whether an
instance of that type is registered. -/
def registryHasType (reg : List Comp) (t : CType) : Bool :=
  reg.any fun c => c.typeName = t

/-- Embeds `System._addComponent(component)`.

```
if (component.isSystemSingleton && this.components.has(component)) {
  throw new Error(`only one component of type ... allowed per system`);
}
this.components.add(component);
```
-/
def addComponent (s : SystemState) (c : Comp) : Except SysErr SystemState :=
  if c.isSystemSingleton && registryHasType s.components c.typeName then
    .error .duplicateSingleton
  else
    .ok ⟨s.components ++ [c]⟩

/-! ## CGraph: the graph-hosting component

The nested `Graph` itself is outside the two source files; its `deflate` and
`tick` results are therefore carried as abstract data on the `CGraph` state
(fields `graphDeflated`, `graphTickResult`), and the claims about `CGraph`
concern only how the host attaches / forwards them. -/

/-- The state of a `CGraph` component relevant to the hosted-graph claims:
the dirty flag `changed`, the value `super.deflate()` would produce, the
value `this.graph.deflate()` would produce, and the value
`this.graph.tick(context)` would return for the current update context. -/
structure CGraph where
  changed : Bool
  superDeflated : Nat
  graphDeflated : Nat
  graphTickResult : Bool
deriving DecidableEq, Repr

/-- A serialized component record: the base payload produced by
`super.deflate()`, plus the optional `graph` field. -/
structure SerRecord where
  base : Nat
  graph : Option Nat
deriving DecidableEq, Repr

/-- The value held by the local variable `json` at the end of the body of
`CGraph.deflate`, after `json.graph = this.graph.deflate()` has run:
the base record with the serialized form of the nested graph attached. -/
def CGraph.deflateLocalJson (c : CGraph) : SerRecord :=
  { base := c.superDeflated, graph := some c.graphDeflated }

/-- Embeds `CGraph.deflate()`.

```
deflate()
{
    const json = super.deflate();
    json.graph = this.graph.deflate();
}
```

The body builds `json` and attaches the `graph` field, but contains no
`return` statement, so the call evaluates to `undefined`: embedded as
`none`. -/
def CGraph.deflate (c : CGraph) : Option SerRecord :=
  let _json := CGraph.deflateLocalJson c
  none

/-- Embeds `CGraph.tick(context)`.

```
tick(context: IUpdateContext): boolean
{
    // keep changed flag set to ensure graph is always updated
    this.changed = true;
    return this.graph.tick(context);
}
```
-/
def CGraph.tick (c : CGraph) : CGraph × Bool :=
  let c' := { c with changed := true }
  (c', c'.graphTickResult)

/-! ## SelectionController -/

/-- Events emitted by the `SelectionController`: node selection changes,
component selection changes (which the source additionally broadcasts
system-wide), and the generic update notification. -/
inductive SelEvent where
  | nodeEv (n : NId) (selected : Bool)
  | compEv (c : CId) (selected : Bool)
  | updateEv
deriving DecidableEq, Repr

/-- The state of a `SelectionController`: the two configuration flags and
the two selection sets.  JavaScript `Set` iterates in insertion order and
holds no duplicates; both sets are embedded as insertion-ordered lists. -/
structure SelState where
  multiSelect : Bool
  exclusiveSelect : Bool
  selectedNodes : List NId
  selectedComponents : List CId
deriving DecidableEq, Repr

/-- Embeds `SelectionController.selectNode(node, toggle)`; returns the
updated state together with the emission trace, in order.

```
const selectedNodes = this._selectedNodes;
const multiSelect = this.multiSelect && toggle;
if (selectedNodes.has(node)) {
  if (multiSelect) { selectedNodes.delete(node); this.emitSelectNodeEvent(node, false); }
}
else {
  if (this.exclusiveSelect) {
    for (let selectedComponent of this._selectedComponents) {
      this.emitSelectComponentEvent(selectedComponent, false);
    }
    this._selectedComponents.clear();
  }
  if (!multiSelect) {
    for (let selectedNode of selectedNodes) { this.emitSelectNodeEvent(selectedNode, false); }
    selectedNodes.clear();
  }
  selectedNodes.add(node);
  this.emitSelectNodeEvent(node, true);
}
```
-/
def selectNode (s : SelState) (node : NId) (toggle : Bool) :
    SelState × List SelEvent :=
  let multiSelect := s.multiSelect && toggle
  if node ∈ s.selectedNodes then
    if multiSelect then
      ({ s with selectedNodes := s.selectedNodes.erase node },
       [.nodeEv node false])
    else (s, [])
  else
    let comps := if s.exclusiveSelect then [] else s.selectedComponents
    let evs1 : List SelEvent :=
      if s.exclusiveSelect then
        s.selectedComponents.map fun c => .compEv c false
      else []
    let nodes := if !multiSelect then [] else s.selectedNodes
    let evs2 : List SelEvent :=
      if !multiSelect then s.selectedNodes.map (fun n => .nodeEv n false)
      else []
    ({ s with selectedNodes := nodes ++ [node], selectedComponents := comps },
     evs1 ++ evs2 ++ [.nodeEv node true])

/-- Embeds `SelectionController.selectComponent(component, toggle)`, the
mirror image of `selectNode` over the component set. -/
def selectComponent (s : SelState) (component : CId) (toggle : Bool) :
    SelState × List SelEvent :=
  let multiSelect := s.multiSelect && toggle
  if component ∈ s.selectedComponents then
    if multiSelect then
      ({ s with selectedComponents := s.selectedComponents.erase component },
       [.compEv component false])
    else (s, [])
  else
    let nodes := if s.exclusiveSelect then [] else s.selectedNodes
    let evs1 : List SelEvent :=
      if s.exclusiveSelect then
        s.selectedNodes.map fun n => .nodeEv n false
      else []
    let comps := if !multiSelect then [] else s.selectedComponents
    let evs2 : List SelEvent :=
      if !multiSelect then
        s.selectedComponents.map (fun c => .compEv c false)
      else []
    ({ s with selectedNodes := nodes,
              selectedComponents := comps ++ [component] },
     evs1 ++ evs2 ++ [.compEv component true])

/-- Embeds `SelectionController.onSystemNode(event)`.

```
if (event.remove && this._selectedNodes.has(event.node)) {
  this.selectNode(event.node, false);
}
this.emit<IControllerUpdateEvent>(SelectionController.updateEvent);
```
-/
def onSystemNode (s : SelState) (node : NId) (removeFlag : Bool) :
    SelState × List SelEvent :=
  let (s', evs) :=
    if removeFlag && node ∈ s.selectedNodes then selectNode s node false
    else (s, [])
  (s', evs ++ [.updateEv])

/-! ## Concrete states used as failing inputs and witnesses -/

/-- A three-element hierarchy chain, root `0` → mid `1` → leaf `2`, with
owning nodes `10`, `11`, `12` and no components on any node. -/
def chainState : HState :=
  { parent := fun h => if h = 2 then some 1 else if h = 1 then some 0 else none,
    children := fun h => if h = 0 then [1] else if h = 1 then [2] else [],
    node := fun h => h + 10,
    compsGet := fun _ _ => none }

/-- An empty hierarchy arena: no parents, no children, no components. -/
def emptyHState : HState :=
  { parent := fun _ => none,
    children := fun _ => [],
    node := fun h => h,
    compsGet := fun _ _ => none }

/-- A two-element chain `0` → `1`, used to exercise the precondition
failures of `addChild` / `removeChild`. -/
def smallChain : HState :=
  { parent := fun h => if h = 1 then some 0 else none,
    children := fun h => if h = 0 then [1] else [],
    node := fun h => h,
    compsGet := fun _ _ => none }

/-- A selection controller in the default configuration
(`multiSelect = false`, `exclusiveSelect = true`) with node `7` currently
selected. -/
def selState7 : SelState :=
  { multiSelect := false, exclusiveSelect := true,
    selectedNodes := [7], selectedComponents := [] }

/-- A freshly constructed selection controller in the default configuration:
nothing selected. -/
def selEmpty : SelState :=
  { multiSelect := false, exclusiveSelect := true,
    selectedNodes := [], selectedComponents := [] }

end FFGraph

namespace FFGraph

/-! ## Claims -/

/-- Claim C1 (code bug). The spec claims `removeChild` performs the same
upward multicast as `addChild`: the `{add=false, remove=true}` event should
reach the removed child, its node, and every former ancestor with its node.
On the chain root `0` → mid `1` → leaf `2`, removing leaf `2` from mid `1`
emits the event only at the leaf and at the node `12` of the leaf: the source sets
`component._parent = null` before the `while (component)` walk, so the walk
stops after the first iteration and neither `1`, `0` nor their nodes `11`,
`10` ever receive the event (shown here for every fuel bound, so this is
not a fuel artifact).  By contrast `addChild` sets `component._parent = this`
before the walk, which therefore does reach every ancestor. -/
theorem removeChild_multicast_stops_at_child (fuel : Nat) :
    (removeChild chainState 1 2 (fuel + 1)).map Prod.snd =
      .ok [⟨⟨false, true, 1, 2⟩, .comp 2⟩, ⟨⟨false, true, 1, 2⟩, .node 12⟩] := by
  have hchain : ∀ f, parentChain
      { chainState with
        children := fun h =>
          if h = 1 then spliceOut (chainState.children h) 2
          else chainState.children h,
        parent := fun h => if h = 2 then none else chainState.parent h }
      none f = [] := by
    intro f; cases f <;> rfl
  simp [removeChild, chainState, multicast, parentChain, spliceOut, hchain]
  rfl

/-- Claim C2 (code bug). The spec claims `getParent(type, recursive=true)`
terminates on every finite tree, returning the component on the nearest
ancestor node that has one, or null when none has it.  On the finite chain
root `0` → mid `1` → leaf `2` (shown finite: the parent walk from the leaf
is exactly `[2, 1, 0]`) with the requested type on no node, the
`while (parent)` loop of the source never reassigns `parent`, so the call
never returns:
for every fuel bound the fueled embedding reports the loop still running
(`none`), whereas the claim requires the terminating result `some none`
(null). -/
theorem getParent_recursive_diverges :
    parentChain chainState (some 2) 5 = [2, 1, 0] ∧
      ∀ fuel, getParent chainState 2 "T" true fuel = none := by
  constructor
  · rfl
  · intro fuel
    have hloop : ∀ f, getParentLoop chainState "T" (some 0) f = none := by
      intro f
      induction f with
      | zero => rfl
      | succ n ih => simpa [getParentLoop, chainState] using ih
    have hdef : getParent chainState 2 "T" true fuel =
        getParentLoop chainState "T" (some 0) fuel := rfl
    rw [hdef, hloop fuel]

/-- Claim C3 (code bug). The spec claims `CGraph.deflate()` returns a
serialized record with the nested graph attached under a `graph` field.
The source body computes that record into the local `json` (which does hold
the `graph` field, first conjunct) but ends without a `return` statement,
so every call evaluates to `undefined` (embedded as `none`, second
conjunct): no record at all is returned to the caller. -/
theorem deflate_returns_undefined (c : CGraph) :
    (CGraph.deflateLocalJson c).graph = some c.graphDeflated ∧
      CGraph.deflate c = none := by
  exact ⟨rfl, rfl⟩

/-- Claim C4 (code bug). The spec claims that removing a currently selected
node deselects it (removing it from the selected set and emitting a
deselect event) before the generic update notification.  With node `7`
selected under the default configuration, the system removal event for `7`
leaves the controller state unchanged — `7` is still in the selected set —
and emits only the update notification, no deselect: `onSystemNode` calls
`selectNode(node, false)`, which on an already-selected node requires
`multiSelect && toggle` to deselect, and `toggle` is `false`, so the call
is a no-op. -/
theorem onSystemNode_never_deselects :
    selState7.selectedNodes = [7] ∧
      onSystemNode selState7 7 true = (selState7, [.updateEv]) := by
  exact ⟨rfl, rfl⟩

/-- Claim C5 (confirmed). In any well-formed arena (the parent reference of
every child is the hierarchy that holds it) where `B` has no parent,
`A.addChild(B)` succeeds, after which `B.parent` is `A` and `A.children`
contains `B` exactly once; a second `A.addChild(B)` without an intervening
remove fails with the StructuralViolation error ("component should not have
a parent"), whatever fuel the multicast walk is given. -/
theorem addChild_attaches_once_then_rejects (s : HState) (A B : HId)
    (fuel : Nat)
    (hwf : ∀ h c, c ∈ s.children h → s.parent c = some h)
    (hB : s.parent B = none) :
    ∃ out, addChild s A B fuel = .ok out ∧
      out.1.parent B = some A ∧
      (out.1.children A).count B = 1 ∧
      ∀ fuel', addChild out.1 A B fuel' = .error .structuralViolation := by
  have hnotin : B ∉ s.children A := by
    intro hmem
    have h := hwf A B hmem
    rw [hB] at h
    exact Option.noConfusion h
  have heq : addChild s A B fuel =
      .ok (⟨fun h => if h = B then some A else s.parent h,
            fun h => if h = A then s.children h ++ [B] else s.children h,
            s.node, s.compsGet⟩,
        multicast
          ⟨fun h => if h = B then some A else s.parent h,
            fun h => if h = A then s.children h ++ [B] else s.children h,
            s.node, s.compsGet⟩
          ⟨true, false, A, B⟩ (some B) fuel) := by
    unfold addChild
    rw [hB]
    rfl
  refine ⟨_, heq, ?_, ?_, ?_⟩
  · simp
  · simp [List.count_append, List.count_eq_zero.mpr hnotin]
  · intro fuel'
    unfold addChild
    simp

/-- Witness for C5: in the empty arena, `0.addChild(1)` succeeds with the
claimed postconditions and the repeated add is rejected. -/
theorem addChild_attaches_once_then_rejects_witness :
    ∃ out, addChild emptyHState 0 1 1 = .ok out ∧
      out.1.parent 1 = some 0 ∧
      (out.1.children 0).count 1 = 1 ∧
      ∀ fuel', addChild out.1 0 1 fuel' = .error .structuralViolation :=
  addChild_attaches_once_then_rejects emptyHState 0 1 1
    (by intro h c hc; simp [emptyHState] at hc) rfl

/-- Claim C6 (confirmed). `System._addComponent` fails with the
DuplicateSingleton error exactly when the component declares itself a system
singleton and the global registry already holds an instance of its type;
otherwise it appends the component to the registry.  In particular two
components of a non-singleton type are both accepted, from any starting
registry. -/
theorem addComponent_singleton_enforcement (s : SystemState) (c : Comp) :
    (c.isSystemSingleton = true →
        registryHasType s.components c.typeName = true →
        addComponent s c = .error .duplicateSingleton) ∧
    ((c.isSystemSingleton && registryHasType s.components c.typeName) = false →
        addComponent s c = .ok ⟨s.components ++ [c]⟩) ∧
    (∀ c₁ c₂ : Comp, c₁.isSystemSingleton = false →
        c₂.isSystemSingleton = false →
        addComponent s c₁ = .ok ⟨s.components ++ [c₁]⟩ ∧
        addComponent ⟨s.components ++ [c₁]⟩ c₂ =
          .ok ⟨s.components ++ [c₁] ++ [c₂]⟩) := by
  refine ⟨fun h1 h2 => ?_, fun h => ?_, fun c₁ c₂ h1 h2 => ⟨?_, ?_⟩⟩
  · simp [addComponent, h1, h2]
  · simp [addComponent, h]
  · simp [addComponent, h1]
  · simp [addComponent, h2]

/-- Witness for C6: in a registry holding a singleton component of type
"A", adding a second singleton of type "A" is rejected, while a
non-singleton component of type "B" is accepted and appended. -/
theorem addComponent_singleton_enforcement_witness :
    addComponent ⟨[⟨0, "A", true⟩]⟩ ⟨1, "A", true⟩ =
      .error .duplicateSingleton ∧
    addComponent ⟨[⟨0, "A", true⟩]⟩ ⟨1, "B", false⟩ =
      .ok ⟨[⟨0, "A", true⟩, ⟨1, "B", false⟩]⟩ :=
  ⟨(addComponent_singleton_enforcement ⟨[⟨0, "A", true⟩]⟩ ⟨1, "A", true⟩).1
      rfl (by decide),
   (addComponent_singleton_enforcement ⟨[⟨0, "A", true⟩]⟩ ⟨1, "B", false⟩).2.1
      (by decide)⟩

/-- Claim C7 (confirmed). Under the default configuration
(`multiSelect = false`, `exclusiveSelect = true`), starting from an empty
selection: selecting node `N1` selects exactly `N1`; then selecting node
`N2 ≠ N1` leaves exactly `N2` selected, emitting deselect `(N1, false)`
before select `(N2, true)`; and selecting a component `C` while `N1` is
selected first emits the node deselect and clears the selected-node set,
then selects the component. -/
theorem exclusive_single_select (N1 N2 : NId) (C : CId) (hne : N1 ≠ N2) :
    selectNode selEmpty N1 false =
      ({ selEmpty with selectedNodes := [N1] }, [.nodeEv N1 true]) ∧
    selectNode { selEmpty with selectedNodes := [N1] } N2 false =
      ({ selEmpty with selectedNodes := [N2] },
        [.nodeEv N1 false, .nodeEv N2 true]) ∧
    selectComponent { selEmpty with selectedNodes := [N1] } C false =
      ({ selEmpty with selectedComponents := [C] },
        [.nodeEv N1 false, .compEv C true]) := by
  have hne' : ¬ (N2 = N1) := fun h => hne h.symm
  refine ⟨?_, ?_, ?_⟩
  · simp [selectNode, selEmpty]
  · simp [selectNode, selEmpty, hne']
  · simp [selectComponent, selEmpty]

/-- Witness for C7 at nodes `1`, `2` and component `3`. -/
theorem exclusive_single_select_witness :
    selectNode selEmpty 1 false =
      ({ selEmpty with selectedNodes := [1] }, [.nodeEv 1 true]) ∧
    selectNode { selEmpty with selectedNodes := [1] } 2 false =
      ({ selEmpty with selectedNodes := [2] },
        [.nodeEv 1 false, .nodeEv 2 true]) ∧
    selectComponent { selEmpty with selectedNodes := [1] } 3 false =
      ({ selEmpty with selectedComponents := [3] },
        [.nodeEv 1 false, .compEv 3 true]) :=
  exclusive_single_select 1 2 3 (by decide)

/-- Claim C8 (confirmed). Both structural preconditions are checked before
any mutation: when `addChild` is called on a component that already has a
parent, or `removeChild` on a component whose parent is not the receiver,
the call fails with the StructuralViolation error.  In the embedding the
error result carries no successor state and no emission trace — exactly as
in the source, where the `throw` is the first statement of each method,
preceding every assignment and every `emit`; so on failure the parent
reference and children list of every hierarchy are those of the input state
and no hierarchy event is emitted. -/
theorem structural_violation_before_mutation (s : HState) (self child : HId)
    (fuel : Nat) :
    ((s.parent child).isSome = true →
        addChild s self child fuel = .error .structuralViolation) ∧
    (s.parent child ≠ some self →
        removeChild s self child fuel = .error .structuralViolation) := by
  constructor
  · intro h
    simp [addChild, h]
  · intro h
    simp [removeChild, h]

/-- Witness for C8: on the chain `0 → 1`, `2.addChild(1)` fails because `1`
already has a parent, and `2.removeChild(1)` fails because the parent of
`1` is `0`, not `2`. -/
theorem structural_violation_before_mutation_witness :
    addChild smallChain 2 1 3 = .error .structuralViolation ∧
    removeChild smallChain 2 1 3 = .error .structuralViolation :=
  ⟨(structural_violation_before_mutation smallChain 2 1 3).1 (by decide),
   (structural_violation_before_mutation smallChain 2 1 3).2 (by decide)⟩

/-- Claim C9 (confirmed). For every update context, `CGraph.tick` sets the
`changed` flag of the hosting component to `true` — unconditionally,
whatever its prior value, and touching nothing else of the component state —
and returns the tick result of the nested Graph for that context. -/
theorem tick_marks_changed_then_delegates (c : CGraph) :
    CGraph.tick c = ({ c with changed := true }, c.graphTickResult) := rfl

/-- Claim C10 (confirmed). When `exclusiveSelect` is true, both `selectNode`
and `selectComponent` preserve the invariant that at most one of the two
selection sets is non-empty; since a fresh controller starts with both sets
empty, in exclusive mode a node and a component are never simultaneously
selected. -/
theorem exclusive_select_invariant (s : SelState)
    (hex : s.exclusiveSelect = true)
    (hinv : s.selectedNodes = [] ∨ s.selectedComponents = [])
    (node : NId) (component : CId) (t t' : Bool) :
    ((selectNode s node t).1.selectedNodes = [] ∨
      (selectNode s node t).1.selectedComponents = []) ∧
    ((selectComponent s component t').1.selectedNodes = [] ∨
      (selectComponent s component t').1.selectedComponents = []) := by
  constructor
  · by_cases hmem : node ∈ s.selectedNodes
    · rcases hinv with h | h
      · rw [h] at hmem
        exact absurd hmem (List.not_mem_nil _)
      · right
        by_cases hms : (s.multiSelect && t) = true
        · simp [selectNode, hmem, hms, h]
        · simp [selectNode, hmem, hms, h]
    · right
      simp [selectNode, hmem, hex]
  · by_cases hmem : component ∈ s.selectedComponents
    · rcases hinv with h | h
      · left
        by_cases hms : (s.multiSelect && t') = true
        · simp [selectComponent, hmem, hms, h]
        · simp [selectComponent, hmem, hms, h]
      · rw [h] at hmem
        exact absurd hmem (List.not_mem_nil _)
    · left
      simp [selectComponent, hmem, hex]

/-- Witness for C10: with `exclusiveSelect` (and `multiSelect`) on and node
`3` selected, toggling node `4` and component `5` each leave at most one of
the two selection sets non-empty. -/
theorem exclusive_select_invariant_witness :
    ((selectNode ⟨true, true, [3], []⟩ 4 true).1.selectedNodes = [] ∨
      (selectNode ⟨true, true, [3], []⟩ 4 true).1.selectedComponents = []) ∧
    ((selectComponent ⟨true, true, [3], []⟩ 5 true).1.selectedNodes = [] ∨
      (selectComponent ⟨true, true, [3], []⟩ 5 true).1.selectedComponents
        = []) :=
  exclusive_select_invariant ⟨true, true, [3], []⟩ rfl (Or.inr rfl) 4 5
    true true

end FFGraph
